import Mathlib

/-!
Shallow embedding of the geocoding / routing engine of `app.py`
(FoaieParcurs: address-to-coordinate resolution and route-distance
computation).

Modelling conventions:
* Python floats are modelled as rationals (`ℚ`); the numeric claims of the spec
  carry an explicit floating-point boundary tolerance, so exact
  rational arithmetic is the faithful idealisation.
* Network calls are inputs: the behaviour of each provider is a field of an
  environment record, an `Except String (List Candidate)` value (`.error`
  is a raised exception - network, HTTP or parse failure - and `.ok` a
  successfully parsed response).  Nominatim is tried twice, so its
  behaviour is a function of the attempt index.
* Streamlit session state is reduced to the two keys the engine touches
  (`_geocode_source`, `_geocode_error`); the on-disk JSON cache is an
  association list keyed by the `"<query>|<limit>"` string.
* Side effects (rate-limiter invocations, provider HTTP calls, sleeps,
  cache writes) are recorded in an event trace returned alongside the
  result, so that "zero outbound calls" style properties are statable.
-/

namespace FoaieParcurs

/-- One geocoding hit, as built by `_locationiq_cached`, `_nominatim_cached`
and `_mapsco_cached` in `app.py`: a dict with exactly the keys
`lat`, `lon`, `display`. -/
structure Candidate where
  lat : ℚ
  lon : ℚ
  display : String
deriving Repr, DecidableEq

/-- The slice of Streamlit session state the resolver touches:
`_geocode_source` and `_geocode_error`. -/
structure Session where
  geocodeSource : Option String
  geocodeError : Option String
deriving Repr, DecidableEq

/-- Observable side effects of a resolver run, in order. `sleepTenths n`
is a `time.sleep` of `n/10` seconds. -/
inductive Ev where
  | rateLimit (tag : String)
  | provCall (provider : String)
  | sleepTenths (n : Nat)
  | cacheWrite (key : String)
deriving Repr, DecidableEq

/-- The on-disk geocode cache `_GEOCODE_DISK`: a JSON object, modelled as an
association list from `"<query>|<limit>"` keys to candidate lists. -/
abbrev Cache := List (String × List Candidate)

/-- The Python method `str.strip()`: drop whitespace from both ends.  Defined over
the character list so that it is structurally computable. -/
def strip (s : String) : String :=
  String.mk (((s.data.dropWhile Char.isWhitespace).reverse.dropWhile
    Char.isWhitespace).reverse)

/-- Dict lookup `disk_key in _GEOCODE_DISK` / `_GEOCODE_DISK[disk_key]`. -/
def Cache.find (c : Cache) (k : String) : Option (List Candidate) :=
  match c with
  | [] => none
  | (k', v) :: rest => if k' = k then some v else Cache.find rest k

/-- Dict assignment `_GEOCODE_DISK[disk_key] = out` (overwrite or add). -/
def Cache.insert (c : Cache) (k : String) (v : List Candidate) : Cache :=
  match c with
  | [] => [(k, v)]
  | (k', v') :: rest =>
      if k' = k then (k, v) :: rest else (k', v') :: Cache.insert rest k v

/-- Environment of a resolver run: the configured LocationIQ credential
(`LOCATIONIQ_KEY`; the empty string means "not configured") and the
behaviour of each provider call. -/
structure GeoEnv where
  locationiqKey : String
  locationiq : Except String (List Candidate)
  nominatim : Nat → Except String (List Candidate)
  mapsco : Except String (List Candidate)

/-- Result of a resolver run: returned candidates, updated session state,
updated on-disk cache, event trace. -/
structure GeoRun where
  result : List Candidate
  sess : Session
  cache : Cache
  trace : List Ev
deriving Repr, DecidableEq

/-- The terminal failure of `geocode_candidates` (fall through all
providers): return `[]`, and when `last_err` is set record the
human-readable message under `_geocode_error`. -/
def geoFail (sess : Session) (cache : Cache) (trace : List Ev)
    (lastErr : Option String) : GeoRun :=
  match lastErr with
  | some err =>
      let msg := "Geocodarea nu este disponibilă momentan. Provideri încercați: " ++ err
      { result := [],
        sess := { sess with geocodeError := some msg },
        cache := cache, trace := trace }
  | none => { result := [], sess := sess, cache := cache, trace := trace }

/-- The LocationIQ stage of `geocode_candidates`: skipped entirely when
no key is configured (`if LOCATIONIQ_KEY:`); otherwise one rate-limited
call which on success tags the session, writes the cache and returns,
and on exception records `last_err`.  Returns `none` in the first
component when the chain must continue. -/
def locationiqStage (key : String) (liq : Except String (List Candidate))
    (diskKey : String) (sess : Session) (cache : Cache) :
    Option GeoRun × Session × Cache × List Ev × Option String :=
  if key = "" then (none, sess, cache, [], none)
  else
    let trace := [Ev.rateLimit "geo", Ev.provCall "LocationIQ"]
    match liq with
    | .ok out =>
        (some { result := out,
                sess := { geocodeSource := some "LocationIQ", geocodeError := none },
                cache := cache.insert diskKey out,
                trace := trace ++ [Ev.cacheWrite diskKey] },
         sess, cache, trace, none)
    | .error e => (none, sess, cache, trace, some ("LocationIQ: " ++ e))

/-- The Nominatim stage of `geocode_candidates`: `for attempt in range(2)`,
each attempt rate-limits, calls `_nominatim_cached`, and on success tags
the session, writes the cache and returns; on exception records
`last_err` and sleeps `0.4 * attempt`.  Returns `none` in the first
component when both attempts failed. -/
def nominatimStage (nom : Nat → Except String (List Candidate))
    (diskKey : String) (sess : Session)
    (cache : Cache) (trace : List Ev) (lastErr : Option String) :
    List Nat → Option GeoRun × Session × Cache × List Ev × Option String
  | [] => (none, sess, cache, trace, lastErr)
  | attempt :: rest =>
    let trace := trace ++ [Ev.rateLimit "geo", Ev.provCall "Nominatim"]
    match nom attempt with
    | .ok out =>
        (some { result := out,
                sess := { geocodeSource := some "Nominatim", geocodeError := none },
                cache := cache.insert diskKey out,
                trace := trace ++ [Ev.cacheWrite diskKey] },
         sess, cache, trace, lastErr)
    | .error e =>
        nominatimStage nom diskKey sess cache
          (trace ++ [Ev.sleepTenths (4 * attempt)])
          (some ("Nominatim: " ++ e)) rest

/-- The maps.co stage of `geocode_candidates`, including the terminal
fall-through: a rate-limited call whose result is used only when
non-empty (`if out2:`); the session is tagged and the cache written only
in that case.  An exception sets `last_err` only when no earlier error
was recorded (`last_err = last_err or ...`).  Any other outcome falls
through to `geoFail`. -/
def mapscoStage (mapsco : Except String (List Candidate)) (diskKey : String)
    (sess : Session)
    (cache : Cache) (trace : List Ev) (lastErr : Option String) : GeoRun :=
  let trace3 := trace ++ [Ev.rateLimit "geo", Ev.provCall "maps.co"]
  match mapsco with
  | .ok out2 =>
      if out2 ≠ [] then
        { result := out2,
          sess := { geocodeSource := some "maps.co", geocodeError := none },
          cache := cache.insert diskKey out2,
          trace := trace3 ++ [Ev.cacheWrite diskKey] }
      else geoFail sess cache trace3 lastErr
  | .error e2 =>
      geoFail sess cache trace3
        (match lastErr with
         | some err => some err
         | none => some ("maps.co: " ++ e2))

/-- `geocode_candidates(q, limit)` from `app.py` (lines 208-256):
trim the query (empty → `[]`), consult the on-disk cache
(`"<q>|<limit>"` hit → return stored list immediately), then try
LocationIQ (if a key is configured, one attempt), Nominatim (two
attempts) and maps.co in that order.  LocationIQ and Nominatim return
whatever a successful call produced; the maps.co result is returned only
when non-empty (`if out2:`).  Each successful stage tags
`_geocode_source`, clears `_geocode_error` and writes the cache; total
fall-through returns `[]` and records the last error message. -/
def geocode_candidates (env : GeoEnv) (sess : Session) (cache : Cache)
    (q : String) (limit : Nat) : GeoRun :=
  let qEff := strip q
  if qEff = "" then { result := [], sess := sess, cache := cache, trace := [] }
  else
    let diskKey := qEff ++ "|" ++ toString limit
    match cache.find diskKey with
    | some cached => { result := cached, sess := sess, cache := cache, trace := [] }
    | none =>
      match locationiqStage env.locationiqKey env.locationiq diskKey sess cache with
      | (some run, _, _, _, _) => run
      | (none, sess1, cache1, trace1, lastErr1) =>
        match nominatimStage env.nominatim diskKey sess1 cache1 trace1 lastErr1 [0, 1] with
        | (some run, _, _, _, _) => run
        | (none, sess2, cache2, trace2, lastErr2) =>
            mapscoStage env.mapsco diskKey sess2 cache2 trace2 lastErr2

/-- How many calls to a given provider a trace records. -/
def callsTo : List Ev → String → Nat
  | [], _ => 0
  | Ev.provCall p2 :: rest, p => (if p2 = p then 1 else 0) + callsTo rest p
  | _ :: rest, p => callsTo rest p

/-- How many rate-limiter invocations a trace records. -/
def rateLimitCalls : List Ev → Nat
  | [] => 0
  | Ev.rateLimit _ :: rest => 1 + rateLimitCalls rest
  | _ :: rest => rateLimitCalls rest

/-- `km_round(x, decimals)` from `app.py` (lines 152-154):
`math.floor(x * 10**decimals + 0.5) / 10**decimals`. -/
def km_round (x : ℚ) (decimals : Nat) : ℚ :=
  let pow10 : ℚ := 10 ^ decimals
  (⌊x * pow10 + 1/2⌋ : ℚ) / pow10

/-- The value `route_osrm` / `_route_osrm_cached` return on success:
`{"km": ..., "coords": [[lon,lat], ...]}`. -/
structure RouteRes where
  km : ℚ
  coords : List (ℚ × ℚ)
deriving Repr, DecidableEq

/-- A GeoJSON geometry object of an OSRM route. -/
structure OsrmGeometry where
  gtype : String
  coordinates : List (ℚ × ℚ)
deriving Repr, DecidableEq

/-- One element of the OSRM `routes` array: `distance` in meters and an
optional `geometry`. -/
structure OsrmRoute where
  distance : ℚ
  geometry : Option OsrmGeometry
deriving Repr, DecidableEq

/-- A successfully parsed OSRM response body (its `routes` array). -/
structure OsrmData where
  routes : List OsrmRoute
deriving Repr, DecidableEq

/-- `_route_osrm_cached` from `app.py` (lines 261-274), applied to a
successfully received and parsed response: no routes → `None`, else the
the `distance / 1000.0` of the first route in km plus its LineString coordinates
(empty when the geometry is absent or not a LineString). -/
def route_osrm_cached (data : OsrmData) : Option RouteRes :=
  match data.routes with
  | [] => none
  | route :: _ =>
      let km := route.distance / 1000
      let coords :=
        match route.geometry with
        | some g => if g.gtype = "LineString" then g.coordinates else []
        | none => []
      some { km := km, coords := coords }

/-- `route_osrm` from `app.py` (lines 278-281): the HTTP exchange is an
input (`.error` = network/HTTP/parse exception, swallowed by the
`try/except` and turned into `None`); on a successful exchange the parsed
body goes through `route_osrm_cached`. -/
def route_osrm (resp : Except String OsrmData) : Option RouteRes :=
  match resp with
  | .error _ => none
  | .ok data => route_osrm_cached data

/-- Loop body of `route_osrm_retry`: attempt index `i`, remaining
attempts as fuel.  `osrm i` is the outcome of the i-th `route_osrm`
call.  Returns (result, number of calls made, number of 0.3s sleeps). -/
def route_osrm_retry_aux (osrm : Nat → Option RouteRes) :
    Nat → Nat → Option RouteRes × Nat × Nat
  | _, 0 => (none, 0, 0)
  | i, k + 1 =>
    match osrm i with
    | some r => (some r, 1, 0)
    | none =>
        let rest := route_osrm_retry_aux osrm (i + 1) k
        (rest.1, rest.2.1 + 1, rest.2.2 + 1)

/-- `route_osrm_retry` from `app.py` (lines 283-291): call `route_osrm`
up to `max(1, tries)` times, return the first truthy result immediately,
sleep 0.3s after each failed attempt, and return `None` (the last failed
result) when every attempt failed. -/
def route_osrm_retry (osrm : Nat → Option RouteRes) (tries : Nat) :
    Option RouteRes × Nat × Nat :=
  route_osrm_retry_aux osrm 0 (max 1 tries)

/-- A resolved itinerary point as collected by `_collect_point_from_state`:
a dict with the keys lat, lon and display. -/
structure Pt where
  lat : ℚ
  lon : ℚ
  display : String
deriving Repr, DecidableEq

/-- One row of the `segments` list built in `run_streamlit_app`:
`{"from": ..., "to": ..., "km_oneway": ...}`. -/
structure Seg where
  fromLabel : String
  toLabel : String
  km_oneway : ℚ
deriving Repr, DecidableEq

/-- One iteration of the segment loop in `run_streamlit_app` (lines
644-651): `res = route_osrm_retry(...) or {}`, `km =
km_round(float(res.get("km", 0.0)), 1)`, plus the `coords` it would
contribute to `path_coords_all`. -/
def seg_of (router : Pt → Pt → Option RouteRes) (a b : Pt) :
    Seg × List (ℚ × ℚ) :=
  match router a b with
  | some res =>
      ({ fromLabel := a.display, toLabel := b.display,
         km_oneway := km_round res.km 1 }, res.coords)
  | none =>
      ({ fromLabel := a.display, toLabel := b.display,
         km_oneway := km_round 0 1 }, [])

/-- The segment assembler of `run_streamlit_app` (lines 642-663): one
segment per consecutive pair of points, plus - when the close-loop
checkbox is set and there are at least two points - a final segment from
the last point back to the first; `path_coords_all` collects the
non-empty coordinate lists.  `router a b` stands for the outcome of
`route_osrm_retry` on that pair. -/
def build_segments (router : Pt → Pt → Option RouteRes) (pts : List Pt)
    (closeLoop : Bool) : List Seg × List (List (ℚ × ℚ)) :=
  let main := (pts.zip pts.tail).map fun ab => seg_of router ab.1 ab.2
  let all :=
    if closeLoop ∧ 2 ≤ pts.length then
      match pts.getLast?, pts.head? with
      | some lastP, some headP => main ++ [seg_of router lastP headP]
      | _, _ => main
    else main
  (all.map Prod.fst, ((all.map Prod.snd).filter fun c => c ≠ []))

/-! Concrete fixtures used by witnesses and counterexamples. -/

/-- A fresh session: no provider tag, no error message recorded. -/
def sessNone : Session := { geocodeSource := none, geocodeError := none }

/-- A concrete geocoding hit. -/
def candX : Candidate := { lat := 44, lon := 26, display := "X" }

/-- Environment where every provider call raises. -/
def envAllFail : GeoEnv :=
  { locationiqKey := "k", locationiq := .error "timeout",
    nominatim := fun _ => .error "timeout", mapsco := .error "timeout" }

/-- Environment with a configured LocationIQ key whose call succeeds with
zero candidates, while the later providers would have produced hits. -/
def envLiqEmpty : GeoEnv :=
  { locationiqKey := "k", locationiq := .ok [],
    nominatim := fun _ => .ok [candX], mapsco := .ok [candX] }

/-- Environment without a LocationIQ key where Nominatim succeeds. -/
def envNomHit : GeoEnv :=
  { locationiqKey := "", locationiq := .error "unused",
    nominatim := fun _ => .ok [candX], mapsco := .error "unused" }

/-- Environment without a LocationIQ key where Nominatim always raises
and maps.co succeeds with the same raw hits as `envNomHit`. -/
def envMapsHit : GeoEnv :=
  { locationiqKey := "", locationiq := .error "unused",
    nominatim := fun _ => .error "down", mapsco := .ok [candX] }

/-! Helper lemmas. -/

/-- Lookup after dict assignment: the assigned key reads back the new
value, every other key is untouched. -/
theorem Cache.find_insert (c : Cache) (k : String) (v : List Candidate)
    (k2 : String) :
    (c.insert k v).find k2 = if k2 = k then some v else c.find k2 := by
  induction c with
  | nil =>
      by_cases h : k2 = k
      · subst h; simp [Cache.insert, Cache.find]
      · have h' : ¬ k = k2 := fun hh => h hh.symm
        simp [Cache.insert, Cache.find, h, h']
  | cons hd tl ih =>
      obtain ⟨a, b⟩ := hd
      by_cases hak : a = k
      · subst hak
        by_cases hk2 : a = k2
        · subst hk2; simp [Cache.insert, Cache.find]
        · have h2 : ¬ k2 = a := fun hh => hk2 hh.symm
          simp [Cache.insert, Cache.find, hk2, h2]
      · simp only [Cache.insert, if_neg hak]
        by_cases hak2 : a = k2
        · subst hak2
          simp [Cache.find, hak]
        · simp [Cache.find, hak2, ih]

/-- A cache hit short-circuits `geocode_candidates` entirely: the stored
list is returned, state is untouched, the trace is empty. -/
theorem geocode_cache_hit (env : GeoEnv) (sess : Session) (cache : Cache)
    (q : String) (limit : Nat) (cs : List Candidate)
    (hq : strip q ≠ "")
    (hc : cache.find (strip q ++ "|" ++ toString limit) = some cs) :
    geocode_candidates env sess cache q limit =
      { result := cs, sess := sess, cache := cache, trace := [] } := by
  unfold geocode_candidates
  simp [hq, hc]

/-! Claims. -/

/-- Claim C6: `km_round x decimals` equals
`floor(x * 10^decimals + 0.5) / 10^decimals`, i.e. explicit half-up
rounding; `km_round 12.34 1 = 12.3` and `km_round 12.35 1 ∈ {12.3, 12.4}`
(in exact rational arithmetic the value is 12.4, inside the tolerated
set; the float boundary tolerance of the claim is thereby met). -/
theorem C6_km_round_half_up :
    (∀ (x : ℚ) (d : Nat), km_round x d = (⌊x * 10 ^ d + 1/2⌋ : ℚ) / 10 ^ d)
    ∧ km_round (1234/100) 1 = 123/10
    ∧ (km_round (1235/100) 1 = 123/10 ∨ km_round (1235/100) 1 = 124/10) := by
  refine ⟨fun x d => rfl, ?_, Or.inr ?_⟩ <;> norm_num [km_round]

/-- Claim C10: a query that strips to the empty string makes
`geocode_candidates` return `[]` immediately - session untouched, cache
untouched (no entry written), trace empty (no cache consultation effect,
no rate-limiter invocation, no provider call), for every limit and every
cache contents. -/
theorem C10_blank_query (env : GeoEnv) (sess : Session) (cache : Cache)
    (q : String) (limit : Nat) (h : strip q = "") :
    geocode_candidates env sess cache q limit =
      { result := [], sess := sess, cache := cache, trace := [] } := by
  unfold geocode_candidates
  simp [h]

/-- Witness for C10 at the whitespace-only query `"   "`. -/
theorem C10_blank_query_witness :
    strip "   " = ""
    ∧ geocode_candidates envAllFail sessNone [] "   " 6 =
        { result := [], sess := sessNone, cache := [], trace := [] } :=
  ⟨by decide, C10_blank_query envAllFail sessNone [] "   " 6 (by decide)⟩

/-- Claim C3: a cache hit on key `strip q ++ "|" ++ limit` returns the
stored candidate list with an empty trace (zero provider calls, zero
rate-limiter invocations) and unchanged state; hence resolving the same
query twice - the second run on the state the first produced, under an
arbitrary (even different) provider environment - yields the same
candidate list both times. -/
theorem C3_cache_hit (env env2 : GeoEnv) (sess : Session) (cache : Cache)
    (q : String) (limit : Nat) (cs : List Candidate)
    (hq : strip q ≠ "")
    (hc : cache.find (strip q ++ "|" ++ toString limit) = some cs) :
    geocode_candidates env sess cache q limit =
      { result := cs, sess := sess, cache := cache, trace := [] }
    ∧ rateLimitCalls (geocode_candidates env sess cache q limit).trace = 0
    ∧ (∀ p, callsTo (geocode_candidates env sess cache q limit).trace p = 0)
    ∧ (geocode_candidates env2
          (geocode_candidates env sess cache q limit).sess
          (geocode_candidates env sess cache q limit).cache q limit).result =
        (geocode_candidates env sess cache q limit).result := by
  have h1 := geocode_cache_hit env sess cache q limit cs hq hc
  have h2 := geocode_cache_hit env2 sess cache q limit cs hq hc
  rw [h1]
  refine ⟨rfl, rfl, fun p => rfl, ?_⟩
  simp [h2]

/-- Witness for C3: cache holding `"abc|6"` is returned unchanged even
under an environment whose every provider raises. -/
theorem C3_cache_hit_witness :
    strip "abc" ≠ ""
    ∧ Cache.find [("abc|6", [candX])] ("abc" ++ "|" ++ toString 6) = some [candX]
    ∧ geocode_candidates envAllFail sessNone [("abc|6", [candX])] "abc" 6 =
        { result := [candX], sess := sessNone,
          cache := [("abc|6", [candX])], trace := [] } :=
  ⟨by decide, by decide,
    (C3_cache_hit envAllFail envAllFail sessNone [("abc|6", [candX])] "abc" 6 [candX]
      (by decide) (by decide)).1⟩

/-- Point A of the end-to-end example of the spec (44.4268, 26.1025). -/
def ptA : Pt := { lat := 444268/10000, lon := 261025/10000, display := "A" }

/-- Point B of the end-to-end example of the spec (44.4400, 26.0970). -/
def ptB : Pt := { lat := 444400/10000, lon := 260970/10000, display := "B" }

/-- A routing oracle that fails on attempt 0 and succeeds on attempt 1. -/
def osrmW : Nat → Option RouteRes :=
  fun j => if j = 1 then some { km := 5, coords := [] } else none

/-- A router whose every call fails. -/
def routerNone : Pt → Pt → Option RouteRes := fun _ _ => none

/-- The retry loop makes at most as many calls as it has attempts. -/
theorem retry_aux_calls_le (osrm : Nat → Option RouteRes) (k : Nat) :
    ∀ i, (route_osrm_retry_aux osrm i k).2.1 ≤ k := by
  induction k with
  | zero => intro i; simp [route_osrm_retry_aux]
  | succ k ih =>
      intro i
      cases h : osrm i with
      | some r => simp [route_osrm_retry_aux, h]
      | none =>
          simp only [route_osrm_retry_aux, h]
          have := ih (i + 1)
          omega

/-- When every attempt in the window fails, the retry loop returns `none`
after `k` calls and `k` sleeps. -/
theorem retry_aux_all_fail (osrm : Nat → Option RouteRes) (k : Nat) :
    ∀ i, (∀ j, j < k → osrm (i + j) = none) →
    route_osrm_retry_aux osrm i k = (none, k, k) := by
  induction k with
  | zero => intro i _; simp [route_osrm_retry_aux]
  | succ k ih =>
      intro i h
      have h0 : osrm i = none := by simpa using h 0 (by omega)
      have hrest := ih (i + 1) (fun j hj => by
        rw [show i + 1 + j = i + (j + 1) by omega]
        exact h (j + 1) (by omega))
      simp [route_osrm_retry_aux, h0, hrest]

/-- The retry loop returns the first successful attempt: `j0` failures
followed by a success yield that result after `j0 + 1` calls with `j0`
sleeps in between. -/
theorem retry_aux_first_success (osrm : Nat → Option RouteRes) (r : RouteRes)
    (j0 : Nat) : ∀ i k, j0 < k →
    (∀ j, j < j0 → osrm (i + j) = none) → osrm (i + j0) = some r →
    route_osrm_retry_aux osrm i k = (some r, j0 + 1, j0) := by
  induction j0 with
  | zero =>
      intro i k hk hfail hs
      obtain ⟨k', rfl⟩ : ∃ k', k = k' + 1 := ⟨k - 1, by omega⟩
      have hs' : osrm i = some r := by simpa using hs
      simp [route_osrm_retry_aux, hs']
  | succ j0 ih =>
      intro i k hk hfail hs
      obtain ⟨k', rfl⟩ : ∃ k', k = k' + 1 := ⟨k - 1, by omega⟩
      have h0 : osrm i = none := by simpa using hfail 0 (by omega)
      have hrest := ih (i + 1) k' (by omega)
        (fun j hj => by
          rw [show i + 1 + j = i + (j + 1) by omega]
          exact hfail (j + 1) (by omega))
        (by rw [show i + 1 + j0 = i + (j0 + 1) by omega]; exact hs)
      simp [route_osrm_retry_aux, h0, hrest]

/-- Claim C7: `route_osrm_retry` makes at most `tries` calls (for
`tries ≥ 1`); when every attempt fails it returns `none` after `tries`
calls (with a 0.3s sleep after each failed attempt); it returns the
first non-absent result, after `j0 + 1` calls and `j0` inter-attempt
0.3s sleeps when the first success is attempt `j0`; in particular with
the default `tries = 2`, one failure followed by a success yields the
successful result, not `none`. -/
theorem C7_route_retry (osrm : Nat → Option RouteRes) (tries : Nat)
    (h : 1 ≤ tries) :
    (route_osrm_retry osrm tries).2.1 ≤ tries
    ∧ ((∀ j, j < tries → osrm j = none) →
        route_osrm_retry osrm tries = (none, tries, tries))
    ∧ (∀ j0 r, j0 < tries → (∀ j, j < j0 → osrm j = none) →
        osrm j0 = some r →
        route_osrm_retry osrm tries = (some r, j0 + 1, j0))
    ∧ (∀ r, osrm 0 = none → osrm 1 = some r →
        (route_osrm_retry osrm 2).1 = some r) := by
  have hmax : max 1 tries = tries := by omega
  refine ⟨?_, ?_, ?_, ?_⟩
  · unfold route_osrm_retry; rw [hmax]; exact retry_aux_calls_le osrm tries 0
  · intro hfail
    unfold route_osrm_retry; rw [hmax]
    exact retry_aux_all_fail osrm tries 0 (fun j hj => by simpa using hfail j hj)
  · intro j0 r hj0 hfail hs
    unfold route_osrm_retry; rw [hmax]
    exact retry_aux_first_success osrm r j0 0 tries hj0
      (fun j hj => by simpa using hfail j hj) (by simpa using hs)
  · intro r h0 h1
    have hfix := retry_aux_first_success osrm r 1 0 2 (by omega)
      (fun j hj => by
        have hj0 : j = 0 := by omega
        subst hj0; simpa using h0)
      (by simpa using h1)
    unfold route_osrm_retry
    rw [show max 1 2 = 2 from rfl, hfix]

/-- Witness for C7: an oracle failing on attempt 0 and succeeding on
attempt 1, run with the default `tries = 2`, returns the successful
result after 2 calls and 1 sleep. -/
theorem C7_route_retry_witness :
    1 ≤ 2
    ∧ route_osrm_retry osrmW 2 = (some { km := 5, coords := [] }, 2, 1) :=
  ⟨by decide,
    (C7_route_retry osrmW 2 (by decide)).2.2.1 1 { km := 5, coords := [] }
      (by decide)
      (fun j hj => by
        have hj0 : j = 0 := by omega
        subst hj0; rfl)
      rfl⟩

/-- Claim C8: `route_osrm` returns `none` (never an exception) when the
request fails or the service reports no route; otherwise it returns the
the `distance / 1000` kilometers of the first route; and a reported distance of
12345 meters produces a segment `km_oneway` of 12.3 after the
1-decimal rounding of the assembler. -/
theorem C8_route_osrm :
    (∀ e, route_osrm (.error e) = none)
    ∧ (∀ data, data.routes = [] → route_osrm (.ok data) = none)
    ∧ (∀ data route rest, data.routes = route :: rest →
        ∃ res, route_osrm (.ok data) = some res
          ∧ res.km = route.distance / 1000)
    ∧ (∀ a b : Pt,
        (seg_of
          (fun _ _ => route_osrm
            (.ok { routes := [{ distance := 12345, geometry := none }] }))
          a b).1.km_oneway = 123/10) := by
  refine ⟨fun e => rfl, ?_, ?_, ?_⟩
  · intro data hr
    simp [route_osrm, route_osrm_cached, hr]
  · intro data route rest hr
    refine ⟨{ km := route.distance / 1000,
              coords := match route.geometry with
                        | some g =>
                            if g.gtype = "LineString" then g.coordinates else []
                        | none => [] }, ?_, rfl⟩
    simp [route_osrm, route_osrm_cached, hr]
  · intro a b
    simp only [seg_of, route_osrm, route_osrm_cached]
    norm_num [km_round]

/-- Witness for C8: a failed request yields `none`; a 12345-meter route
between the example points A and B yields a 12.3 km segment. -/
theorem C8_route_osrm_witness :
    route_osrm (.error "boom") = none
    ∧ (seg_of
        (fun _ _ => route_osrm
          (.ok { routes := [{ distance := 12345, geometry := none }] }))
        ptA ptB).1.km_oneway = 123/10 :=
  ⟨C8_route_osrm.1 "boom", C8_route_osrm.2.2.2 ptA ptB⟩

/-- Claim C5: the assembler yields one segment per consecutive pair, in
itinerary order (`N - 1` segments for `N` points with `closeLoop =
false`), appends a final last-to-first segment when `closeLoop = true`
and `N ≥ 2` (`N` segments in total), and a pair whose routing call
failed still yields a placeholder segment with `km_oneway = 0`. -/
theorem C5_segment_assembler (router : Pt → Pt → Option RouteRes)
    (pts : List Pt) :
    (build_segments router pts false).1 =
        (pts.zip pts.tail).map (fun ab => (seg_of router ab.1 ab.2).1)
    ∧ (build_segments router pts false).1.length = pts.length - 1
    ∧ (∀ lp hp, 2 ≤ pts.length → pts.getLast? = some lp →
        pts.head? = some hp →
        (build_segments router pts true).1 =
          (pts.zip pts.tail).map (fun ab => (seg_of router ab.1 ab.2).1)
            ++ [(seg_of router lp hp).1])
    ∧ (2 ≤ pts.length → (build_segments router pts true).1.length = pts.length)
    ∧ (∀ a b, router a b = none → (seg_of router a b).1.km_oneway = 0) := by
  have hzlen : (pts.zip pts.tail).length = pts.length - 1 := by
    simp [List.length_zip]
  have h1 : (build_segments router pts false).1 =
      (pts.zip pts.tail).map (fun ab => (seg_of router ab.1 ab.2).1) := by
    simp [build_segments]
  have h3 : ∀ lp hp, 2 ≤ pts.length → pts.getLast? = some lp →
      pts.head? = some hp →
      (build_segments router pts true).1 =
        (pts.zip pts.tail).map (fun ab => (seg_of router ab.1 ab.2).1)
          ++ [(seg_of router lp hp).1] := by
    intro lp hp hlen hlast hhead
    simp [build_segments, hlen, hlast, hhead]
  refine ⟨h1, by rw [h1, List.length_map, hzlen], h3, ?_, ?_⟩
  · intro hlen
    obtain ⟨a, tl, rfl⟩ : ∃ a tl, pts = a :: tl := by
      cases pts with
      | nil => simp at hlen
      | cons a tl => exact ⟨a, tl, rfl⟩
    obtain ⟨lp, hlast⟩ :=
      Option.isSome_iff_exists.mp
        (List.getLast?_isSome.mpr (List.cons_ne_nil a tl))
    rw [h3 lp a hlen hlast rfl]
    simp [List.length_map, hzlen]
  · intro a b hfail
    simp only [seg_of, hfail]
    norm_num [km_round]

/-- Witness for C5: two points with `closeLoop = true` and an
always-failing router give exactly 2 segments. -/
theorem C5_segment_assembler_witness :
    2 ≤ ([ptA, ptB] : List Pt).length
    ∧ (build_segments routerNone [ptA, ptB] true).1.length =
        ([ptA, ptB] : List Pt).length :=
  ⟨by decide, (C5_segment_assembler routerNone [ptA, ptB]).2.2.2.1 (by decide)⟩

/-- Environment in which every provider either raises or yields zero
candidates, the first configured provider (LocationIQ) being the one
that succeeds with zero candidates. -/
def envAllEmpty : GeoEnv :=
  { locationiqKey := "k", locationiq := .ok [],
    nominatim := fun _ => .error "timeout", mapsco := .ok [] }

/-- Claim C1 counterexample: under `envAllEmpty` every provider fails or
yields nothing, and `geocode_candidates` does return `[]` - but no
last-error string is recorded: the successful-but-empty LocationIQ call
clears `_geocode_error` and short-circuits the chain, so the statement of the claim,
"records a human-readable last-error string", is false at this input. -/
theorem C1_cex_empty_success_no_error :
    (envAllEmpty.locationiq = .ok []
      ∧ (∀ a, a < 2 → envAllEmpty.nominatim a = .error "timeout")
      ∧ envAllEmpty.mapsco = .ok [])
    ∧ (geocode_candidates envAllEmpty sessNone [] "abc" 6).result = []
    ∧ (geocode_candidates envAllEmpty sessNone [] "abc" 6).sess.geocodeError
        = none := by
  refine ⟨⟨rfl, fun a _ => rfl, rfl⟩, ?_, ?_⟩ <;> decide

/-- Claim C1 (amended): `geocode_candidates` is a total function (never
raises).  When the chain is exhausted - LocationIQ raising or skipped,
both Nominatim attempts raising, and maps.co raising or yielding zero
candidates - it returns `[]` and records a human-readable last-error
string in session state.  (As the counterexample shows, a LocationIQ or
Nominatim call that succeeds with zero candidates instead returns `[]`
with the error cleared.) -/
theorem C1_geocode_total_failure (env : GeoEnv) (sess : Session)
    (cache : Cache) (q : String) (limit : Nat)
    (hq : strip q ≠ "")
    (hmiss : cache.find (strip q ++ "|" ++ toString limit) = none)
    (hliq : env.locationiqKey ≠ "" → ∃ e, env.locationiq = .error e)
    (hnom0 : ∃ e, env.nominatim 0 = .error e)
    (hnom1 : ∃ e, env.nominatim 1 = .error e)
    (hmap : (∃ e, env.mapsco = .error e) ∨ env.mapsco = .ok []) :
    (geocode_candidates env sess cache q limit).result = []
    ∧ (geocode_candidates env sess cache q limit).sess.geocodeError.isSome := by
  obtain ⟨e0, h0⟩ := hnom0
  obtain ⟨e1, h1⟩ := hnom1
  by_cases hk : env.locationiqKey = ""
  · rcases hmap with ⟨e2, h2⟩ | h2 <;>
      simp [geocode_candidates, locationiqStage, nominatimStage, mapscoStage,
        geoFail, hq, hmiss, hk, h0, h1, h2]
  · obtain ⟨eL, hL⟩ := hliq hk
    rcases hmap with ⟨e2, h2⟩ | h2 <;>
      simp [geocode_candidates, locationiqStage, nominatimStage, mapscoStage,
        geoFail, hq, hmiss, hk, hL, h0, h1, h2]

/-- Witness for the amended C1: with every provider raising, the result
is empty and an error message is recorded. -/
theorem C1_geocode_total_failure_witness :
    (strip "abc" ≠ ""
      ∧ Cache.find [] (strip "abc" ++ "|" ++ toString 6) = none)
    ∧ (geocode_candidates envAllFail sessNone [] "abc" 6).result = []
    ∧ (geocode_candidates envAllFail sessNone [] "abc" 6).sess.geocodeError.isSome :=
  ⟨⟨by decide, by decide⟩,
    C1_geocode_total_failure envAllFail sessNone [] "abc" 6
      (by decide) (by decide)
      (fun _ => ⟨"timeout", rfl⟩) ⟨"timeout", rfl⟩ ⟨"timeout", rfl⟩
      (Or.inl ⟨"timeout", rfl⟩)⟩

/-- Claim C2 counterexample: with a configured LocationIQ key whose call
succeeds with zero candidates, `geocode_candidates` stores the empty
list under the cache key - so an empty candidate list is written to the
persistent cache, contradicting the non-empty-only caching policy. -/
theorem C2_cex_empty_list_cached :
    envLiqEmpty.locationiq = .ok []
    ∧ (geocode_candidates envLiqEmpty sessNone [] "abc" 6).cache.find "abc|6"
        = some [] := by
  refine ⟨rfl, ?_⟩
  decide

/-- Claim C2 (amended): only the maps.co stage guards against empty
results, so when any cache write can only come from maps.co (LocationIQ
raising or unconfigured, both Nominatim attempts raising), every entry
of the resulting cache is either a pre-existing entry or a non-empty
list.  (The LocationIQ and Nominatim stages instead write whatever a
successful call produced, including the empty list - see the
counterexample.) -/
theorem C2_mapsco_writes_nonempty (env : GeoEnv) (sess : Session)
    (cache : Cache) (q : String) (limit : Nat)
    (hliq : env.locationiqKey ≠ "" → ∃ e, env.locationiq = .error e)
    (hnom0 : ∃ e, env.nominatim 0 = .error e)
    (hnom1 : ∃ e, env.nominatim 1 = .error e)
    (k : String) (v : List Candidate)
    (hfind : (geocode_candidates env sess cache q limit).cache.find k = some v) :
    cache.find k = some v ∨ v ≠ [] := by
  obtain ⟨e0, h0⟩ := hnom0
  obtain ⟨e1, h1⟩ := hnom1
  have hshape : (geocode_candidates env sess cache q limit).cache = cache
      ∨ ∃ out2, out2 ≠ []
          ∧ (geocode_candidates env sess cache q limit).cache =
              cache.insert (strip q ++ "|" ++ toString limit) out2 := by
    by_cases hq : strip q = ""
    · exact Or.inl (by simp [geocode_candidates, hq])
    cases hfindKey : cache.find (strip q ++ "|" ++ toString limit) with
    | some cs => exact Or.inl (by simp [geocode_candidates, hq, hfindKey])
    | none =>
        by_cases hk : env.locationiqKey = ""
        · cases hm : env.mapsco with
          | ok out2 =>
              cases out2 with
              | nil =>
                  exact Or.inl (by
                    simp [geocode_candidates, locationiqStage, nominatimStage,
                      mapscoStage, geoFail, hq, hfindKey, hk, h0, h1, hm])
              | cons c cs =>
                  exact Or.inr ⟨c :: cs, by simp, by
                    simp [geocode_candidates, locationiqStage, nominatimStage,
                      mapscoStage, geoFail, hq, hfindKey, hk, h0, h1, hm]⟩
          | error e2 =>
              exact Or.inl (by
                simp [geocode_candidates, locationiqStage, nominatimStage,
                  mapscoStage, geoFail, hq, hfindKey, hk, h0, h1, hm])
        · obtain ⟨eL, hLerr⟩ := hliq hk
          cases hm : env.mapsco with
          | ok out2 =>
              cases out2 with
              | nil =>
                  exact Or.inl (by
                    simp [geocode_candidates, locationiqStage, nominatimStage,
                      mapscoStage, geoFail, hq, hfindKey, hk, hLerr, h0, h1, hm])
              | cons c cs =>
                  exact Or.inr ⟨c :: cs, by simp, by
                    simp [geocode_candidates, locationiqStage, nominatimStage,
                      mapscoStage, geoFail, hq, hfindKey, hk, hLerr, h0, h1, hm]⟩
          | error e2 =>
              exact Or.inl (by
                simp [geocode_candidates, locationiqStage, nominatimStage,
                  mapscoStage, geoFail, hq, hfindKey, hk, hLerr, h0, h1, hm])
  rcases hshape with hsame | ⟨out2, hne, hins⟩
  · rw [hsame] at hfind
    exact Or.inl hfind
  · rw [hins, Cache.find_insert] at hfind
    by_cases hkk : k = strip q ++ "|" ++ toString limit
    · rw [if_pos hkk] at hfind
      right
      cases hfind
      exact hne
    · rw [if_neg hkk] at hfind
      exact Or.inl hfind

/-- Witness for the amended C2: the maps.co stage stores a non-empty
list, and the theorem classifies it as a fresh non-empty entry. -/
theorem C2_mapsco_writes_nonempty_witness :
    (geocode_candidates envMapsHit sessNone [] "abc" 6).cache.find "abc|6"
        = some [candX]
    ∧ (Cache.find [] "abc|6" = some [candX] ∨ [candX] ≠ ([] : List Candidate)) :=
  ⟨by decide,
    C2_mapsco_writes_nonempty envMapsHit sessNone [] "abc" 6
      (fun h => absurd rfl h) ⟨"down", rfl⟩ ⟨"down", rfl⟩
      "abc|6" [candX] (by decide)⟩

/-- Claim C4 counterexample: with a configured key, a LocationIQ call
that succeeds with zero candidates ends the chain - `geocode_candidates`
returns `[]` without ever calling Nominatim or maps.co (which here would
have produced a hit).  This contradicts the claim that a provider call
succeeding with zero candidates causes the next provider to be tried. -/
theorem C4_cex_empty_success_short_circuits :
    (envLiqEmpty.locationiq = .ok []
      ∧ envLiqEmpty.nominatim 0 = .ok [candX])
    ∧ (geocode_candidates envLiqEmpty sessNone [] "abc" 6).result = []
    ∧ callsTo (geocode_candidates envLiqEmpty sessNone [] "abc" 6).trace
        "Nominatim" = 0
    ∧ callsTo (geocode_candidates envLiqEmpty sessNone [] "abc" 6).trace
        "maps.co" = 0 := by
  refine ⟨⟨rfl, rfl⟩, ?_, ?_, ?_⟩ <;> decide

/-- Claim C4 (amended): on a cache miss the providers are tried in the
fixed order LocationIQ, Nominatim, maps.co; LocationIQ is skipped when
no credential is configured (the run does not depend on its behaviour at
all); LocationIQ and Nominatim return immediately upon any successful
call - even one with zero candidates - while only maps.co requires a
non-empty result; if LocationIQ fails, Nominatim is invoked before
returning, and if both Nominatim attempts also fail, maps.co is invoked
(once) before returning. -/
theorem C4_provider_chain (env : GeoEnv) (sess : Session) (cache : Cache)
    (q : String) (limit : Nat)
    (hq : strip q ≠ "")
    (hmiss : cache.find (strip q ++ "|" ++ toString limit) = none) :
    (env.locationiqKey = "" → ∀ liq2,
        geocode_candidates { env with locationiq := liq2 } sess cache q limit
          = geocode_candidates env sess cache q limit)
    ∧ (∀ out, env.locationiqKey ≠ "" → env.locationiq = .ok out →
        geocode_candidates env sess cache q limit =
          { result := out,
            sess := { geocodeSource := some "LocationIQ", geocodeError := none },
            cache := cache.insert (strip q ++ "|" ++ toString limit) out,
            trace := [Ev.rateLimit "geo", Ev.provCall "LocationIQ",
                      Ev.cacheWrite (strip q ++ "|" ++ toString limit)] })
    ∧ (∀ e, env.locationiqKey ≠ "" → env.locationiq = .error e →
        1 ≤ callsTo (geocode_candidates env sess cache q limit).trace "Nominatim")
    ∧ (∀ out, env.locationiqKey = "" → env.nominatim 0 = .ok out →
        (geocode_candidates env sess cache q limit).result = out
        ∧ callsTo (geocode_candidates env sess cache q limit).trace "maps.co" = 0)
    ∧ ((env.locationiqKey ≠ "" → ∃ e, env.locationiq = .error e) →
        (∃ e, env.nominatim 0 = .error e) →
        (∃ e, env.nominatim 1 = .error e) →
        callsTo (geocode_candidates env sess cache q limit).trace "maps.co" = 1
        ∧ (∀ out2, env.mapsco = .ok out2 → out2 ≠ [] →
            (geocode_candidates env sess cache q limit).result = out2)) := by
  refine ⟨?_, ?_, ?_, ?_, ?_⟩
  · intro hk liq2
    simp [geocode_candidates, locationiqStage, hk]
  · intro out hk hok
    simp [geocode_candidates, locationiqStage, hq, hmiss, hk, hok]
  · intro e hk herr
    cases h0 : env.nominatim 0 with
    | ok out0 =>
        simp [geocode_candidates, locationiqStage, nominatimStage, hq, hmiss,
          hk, herr, h0, callsTo]
    | error e0 =>
        cases h1 : env.nominatim 1 with
        | ok out1 =>
            simp [geocode_candidates, locationiqStage, nominatimStage, hq,
              hmiss, hk, herr, h0, h1, callsTo]
        | error e1 =>
            cases hm : env.mapsco with
            | ok out2 =>
                cases out2 with
                | nil =>
                    simp [geocode_candidates, locationiqStage, nominatimStage,
                      mapscoStage, geoFail, hq, hmiss, hk, herr, h0, h1, hm,
                      callsTo]
                | cons c cs =>
                    simp [geocode_candidates, locationiqStage, nominatimStage,
                      mapscoStage, geoFail, hq, hmiss, hk, herr, h0, h1, hm,
                      callsTo]
            | error e2 =>
                simp [geocode_candidates, locationiqStage, nominatimStage,
                  mapscoStage, geoFail, hq, hmiss, hk, herr, h0, h1, hm,
                  callsTo]
  · intro out hk h0
    constructor <;>
      simp [geocode_candidates, locationiqStage, nominatimStage, hq, hmiss,
        hk, h0, callsTo]
  · intro hliq hnom0 hnom1
    obtain ⟨e0, h0⟩ := hnom0
    obtain ⟨e1, h1⟩ := hnom1
    refine ⟨?_, ?_⟩
    · by_cases hk : env.locationiqKey = ""
      · cases hm : env.mapsco with
        | ok out2 =>
            cases out2 with
            | nil =>
                simp [geocode_candidates, locationiqStage, nominatimStage,
                  mapscoStage, geoFail, hq, hmiss, hk, h0, h1, hm, callsTo]
            | cons c cs =>
                simp [geocode_candidates, locationiqStage, nominatimStage,
                  mapscoStage, geoFail, hq, hmiss, hk, h0, h1, hm, callsTo]
        | error e2 =>
            simp [geocode_candidates, locationiqStage, nominatimStage,
              mapscoStage, geoFail, hq, hmiss, hk, h0, h1, hm, callsTo]
      · obtain ⟨eL, hL⟩ := hliq hk
        cases hm : env.mapsco with
        | ok out2 =>
            cases out2 with
            | nil =>
                simp [geocode_candidates, locationiqStage, nominatimStage,
                  mapscoStage, geoFail, hq, hmiss, hk, hL, h0, h1, hm, callsTo]
            | cons c cs =>
                simp [geocode_candidates, locationiqStage, nominatimStage,
                  mapscoStage, geoFail, hq, hmiss, hk, hL, h0, h1, hm, callsTo]
        | error e2 =>
            simp [geocode_candidates, locationiqStage, nominatimStage,
              mapscoStage, geoFail, hq, hmiss, hk, hL, h0, h1, hm, callsTo]
    · intro out2 hm hne
      cases out2 with
      | nil => exact absurd rfl hne
      | cons c cs =>
          by_cases hk : env.locationiqKey = ""
          · simp [geocode_candidates, locationiqStage, nominatimStage,
              mapscoStage, hq, hmiss, hk, h0, h1, hm]
          · obtain ⟨eL, hL⟩ := hliq hk
            simp [geocode_candidates, locationiqStage, nominatimStage,
              mapscoStage, hq, hmiss, hk, hL, h0, h1, hm]

/-- Witness for the amended C4: with LocationIQ configured but raising,
Nominatim is invoked before returning. -/
theorem C4_provider_chain_witness :
    (strip "abc" ≠ ""
      ∧ Cache.find [] (strip "abc" ++ "|" ++ toString 6) = none)
    ∧ 1 ≤ callsTo (geocode_candidates envAllFail sessNone [] "abc" 6).trace
        "Nominatim" :=
  ⟨⟨by decide, by decide⟩,
    (C4_provider_chain envAllFail sessNone [] "abc" 6 (by decide)
        (by decide)).2.2.1 "timeout" (by decide) rfl⟩

/-- Claim C9 counterexample: two environments in which different
providers (Nominatim vs maps.co) win with the same raw hits produce
identical candidate lists - so a returned Candidate carries no field
identifying the provider that produced it; the id of the winning provider
is recorded out of band, in the session field `_geocode_source`, which is where
the two runs differ. -/
theorem C9_cex_no_source_field :
    (geocode_candidates envNomHit sessNone [] "abc" 6).sess.geocodeSource
        = some "Nominatim"
    ∧ (geocode_candidates envMapsHit sessNone [] "abc" 6).sess.geocodeSource
        = some "maps.co"
    ∧ (geocode_candidates envNomHit sessNone [] "abc" 6).result
        = (geocode_candidates envMapsHit sessNone [] "abc" 6).result := by
  refine ⟨?_, ?_, ?_⟩ <;> decide

/-- Claim C9 (amended): candidates carry latitude, longitude and label
only; the resolver records the id of the winning provider once, out of band,
in session state (`_geocode_source`) - "LocationIQ", "Nominatim" or
"maps.co" according to which stage won - and on a cache hit the session
is left untouched, so no provider id is recorded at all. -/
theorem C9_source_in_session (env : GeoEnv) (sess : Session) (cache : Cache)
    (q : String) (limit : Nat) (hq : strip q ≠ "") :
    (∀ out, cache.find (strip q ++ "|" ++ toString limit) = none →
        env.locationiqKey ≠ "" → env.locationiq = .ok out →
        (geocode_candidates env sess cache q limit).sess.geocodeSource
          = some "LocationIQ")
    ∧ (∀ out, cache.find (strip q ++ "|" ++ toString limit) = none →
        env.locationiqKey = "" → env.nominatim 0 = .ok out →
        (geocode_candidates env sess cache q limit).sess.geocodeSource
          = some "Nominatim")
    ∧ (∀ out2, cache.find (strip q ++ "|" ++ toString limit) = none →
        (env.locationiqKey ≠ "" → ∃ e, env.locationiq = .error e) →
        (∃ e, env.nominatim 0 = .error e) →
        (∃ e, env.nominatim 1 = .error e) →
        env.mapsco = .ok out2 → out2 ≠ [] →
        (geocode_candidates env sess cache q limit).sess.geocodeSource
          = some "maps.co")
    ∧ (∀ cs, cache.find (strip q ++ "|" ++ toString limit) = some cs →
        (geocode_candidates env sess cache q limit).sess = sess) := by
  refine ⟨?_, ?_, ?_, ?_⟩
  · intro out hmiss hk hok
    simp [geocode_candidates, locationiqStage, hq, hmiss, hk, hok]
  · intro out hmiss hk h0
    simp [geocode_candidates, locationiqStage, nominatimStage, hq, hmiss,
      hk, h0]
  · intro out2 hmiss hliq hnom0 hnom1 hm hne
    obtain ⟨e0, h0⟩ := hnom0
    obtain ⟨e1, h1⟩ := hnom1
    cases out2 with
    | nil => exact absurd rfl hne
    | cons c cs =>
        by_cases hk : env.locationiqKey = ""
        · simp [geocode_candidates, locationiqStage, nominatimStage,
            mapscoStage, hq, hmiss, hk, h0, h1, hm]
        · obtain ⟨eL, hL⟩ := hliq hk
          simp [geocode_candidates, locationiqStage, nominatimStage,
            mapscoStage, hq, hmiss, hk, hL, h0, h1, hm]
  · intro cs hhit
    rw [geocode_cache_hit env sess cache q limit cs hq hhit]

/-- Witness for the amended C9: a Nominatim win tags the session with
"Nominatim". -/
theorem C9_source_in_session_witness :
    strip "abc" ≠ ""
    ∧ (geocode_candidates envNomHit sessNone [] "abc" 6).sess.geocodeSource
        = some "Nominatim" :=
  ⟨by decide,
    (C9_source_in_session envNomHit sessNone [] "abc" 6 (by decide)).2.1
      [candX] (by decide) rfl rfl⟩

end FoaieParcurs
